import Mathlib

/-!
Shallow embedding of the reviewed Blueprint UI sources:

* packages/core/src/components/menu/menuItem.tsx — the MenuItem component
  (render, maybeRenderLabel, maybeRenderPopover, DISABLED_PROPS).
* packages/docs-app/src/examples/select-examples/omnibarExample.tsx — the
  OmnibarExample state handlers.
* packages/docs-app/src/examples/core-examples/numericInputBasicExample.tsx —
  the NumericInputBasicExample state handlers.
* the Select test suite (the Select component itself is not among the
  sources, so its rendering and popover behaviour are modelled from the
  spec where needed; those definitions say so in their doc comments).

React nodes carried opaquely through props (item text, label elements,
submenu children) are modelled by abstract identifiers; event handlers are
likewise opaque identifiers.  CSS class constants from the common Classes
module are modelled as tokens of an enumeration, with custom class-name
strings kept distinct from the built-in constants.
-/

/-- Opaque React node (element, string, fragment, ...) carried through props
and not interpreted further by the reviewed code. -/
abbrev ReactNode := Nat

/-- Intent values that produce an intent CSS class.  An absent intent and
Intent.NONE both yield no class from Classes.intentClass, so both are
modelled by `none` at use sites. -/
inductive Intent where
  | primary
  | success
  | warning
  | danger
  deriving DecidableEq, Repr

/-- Icon identifiers: the two literal names used by menuItem.tsx
("small-tick", "blank") plus opaque custom icons supplied via props. -/
inductive IconName where
  | smallTick
  | blank
  | custom (id : Nat)
  deriving DecidableEq, Repr

/-- CSS class tokens used by menuItem.tsx, from the common Classes module.
Custom class strings passed through className props are opaque tokens
distinct from the built-in constants. -/
inductive CssClass where
  | MENU_ITEM
  | ACTIVE
  | DISABLED
  | POPOVER_DISMISS
  | SELECTED
  | MENU_SUBMENU
  | MENU_ITEM_ICON
  | MENU_ITEM_LABEL
  | FILL
  | MENU_SUBMENU_ICON
  | intentClassOf (i : Intent)
  | custom (name : String)
  deriving DecidableEq, Repr

/-- Classes.intentClass: no class for an absent intent (or Intent.NONE,
also modelled by none), otherwise the intent class. -/
def Classes.intentClass : Option Intent → Option CssClass
  | none => none
  | some i => some (CssClass.intentClassOf i)

/-- The rest of the HTML prop bag spread onto the target element (the
htmlProps rest of the destructuring in MenuItem.render).  A field holding
none models a key absent from the bag; handlers are opaque identifiers.
className is destructured out and so never reaches this rest bag, but role
is not destructured: a role passed through the anchor HTML attributes stays
here and, being spread after the component's own role, overrides the
roleStructure-derived target role. -/
structure HtmlProps where
  role : Option String := none
  href : Option String := none
  onClick : Option Nat := none
  onMouseDown : Option Nat := none
  onMouseEnter : Option Nat := none
  onMouseLeave : Option Nat := none
  tabIndex : Option Int := none
  other : List (String × String) := []
  deriving DecidableEq, Repr

/-- The two roleStructure values of MenuItemProps. -/
inductive RoleStructure where
  | menuitem
  | listoption
  deriving DecidableEq, Repr

/-- Props spread to the submenu Popover (popoverProps).  The reviewed code
reads only popoverClassName from it; the remaining pass-through entries are
kept as an opaque identifier. -/
structure SubmenuPopoverProps where
  popoverClassName : Option String := none
  rest : Nat := 0
  deriving DecidableEq, Repr

/-- MenuItemProps together with the pass-through anchor HTML attributes.
Field defaults mirror MenuItem.defaultProps (active false, disabled false,
multiline false, popoverProps empty, selected undefined,
shouldDismissPopover true, text "") — defaults apply exactly when the prop
is left undefined, as React defaultProps do.  roleStructure and tagName
keep their destructuring defaults in render, so an omitted value is
represented by none here. -/
structure MenuItemProps where
  text : ReactNode := 0
  active : Bool := false
  children : Option ReactNode := none
  className : Option String := none
  disabled : Bool := false
  htmlTitle : Option String := none
  icon : Option IconName := none
  intent : Option Intent := none
  label : Option String := none
  labelClassName : Option String := none
  labelElement : Option ReactNode := none
  multiline : Bool := false
  popoverProps : SubmenuPopoverProps := {}
  roleStructure : Option RoleStructure := none
  selected : Option Bool := none
  shouldDismissPopover : Bool := true
  submenuProps : Nat := 0
  tagName : Option String := none
  textClassName : Option String := none
  htmlProps : HtmlProps := {}
  deriving DecidableEq, Repr

/-- The resolved attribute record of the target element, after the object
literal in MenuItem.render is evaluated: role and tabIndex 0 first, then the
htmlProps spread, then (when disabled) the DISABLED_PROPS spread, and the
computed className last. -/
structure TargetAttrs where
  role : Option String := none
  tabIndex : Option Int := none
  href : Option String := none
  onClick : Option Nat := none
  onMouseDown : Option Nat := none
  onMouseEnter : Option Nat := none
  onMouseLeave : Option Nat := none
  other : List (String × String) := []
  className : List CssClass := []
  deriving DecidableEq, Repr

/-- The element tree produced by MenuItem.render.  Component elements
(Popover, Menu, the icon span, Text, the label span, CaretRight) are kept as
distinct node kinds; the popoverNode fields record the attributes of the
Popover element in source order (the opaque passedProps bag is spread after
the literal defaults, while content, minimal and popoverClassName follow the
spread and cannot be overridden by it). -/
inductive Rendered where
  | liNode (classes : List CssClass) (role : String) (ariaSelected : Option Bool)
      (child : Rendered)
  | targetNode (tag : String) (attrs : TargetAttrs) (children : List Rendered)
  | iconSpanNode (classes : List CssClass) (icon : IconName) (ariaHidden : Bool)
      (iconTabIndex : Int)
  | textNode (classes : List CssClass) (ellipsize : Bool) (title : Option String)
      (content : ReactNode)
  | labelSpanNode (classes : List CssClass) (label : Option String)
      (labelElement : Option ReactNode)
  | caretRightNode (classes : List CssClass) (title : String)
  | popoverNode (autoFocus : Bool) (captureDismiss : Bool) (disabled : Bool)
      (enforceFocus : Bool) (hoverCloseDelay : Nat) (interactionKind : String)
      (modifiers : Nat) (placement : String) (usePortal : Bool)
      (passedProps : SubmenuPopoverProps) (content : Rendered) (minimal : Bool)
      (popoverClassName : List CssClass) (child : Rendered)
  | menuNode (submenuProps : Nat) (children : ReactNode)

/-- Opaque token for the SUBMENU_POPOVER_MODIFIERS popper configuration
(flip, offset, preventOverflow); no reviewed claim inspects it. -/
def SUBMENU_POPOVER_MODIFIERS : Nat := 0

/-- The roleStructure destructuring default in MenuItem.render. -/
def MenuItem.resolvedRoleStructure (p : MenuItemProps) : RoleStructure :=
  p.roleStructure.getD RoleStructure.menuitem

/-- First component of the destructured tuple at menuItem.tsx lines 184-199:
the role of the li element. -/
def MenuItem.liRole (p : MenuItemProps) : String :=
  match MenuItem.resolvedRoleStructure p with
  | RoleStructure.listoption => "option"
  | RoleStructure.menuitem => "none"

/-- Second component of the tuple: the role of the target element
(no role in the listoption structure). -/
def MenuItem.targetRole (p : MenuItemProps) : Option String :=
  match MenuItem.resolvedRoleStructure p with
  | RoleStructure.listoption => none
  | RoleStructure.menuitem => some "menuitem"

/-- Third component of the tuple: the icon, where the listoption structure
falls back from the icon prop to a small-tick or blank icon driven by
selected. -/
def MenuItem.resolvedIcon (p : MenuItemProps) : Option IconName :=
  match MenuItem.resolvedRoleStructure p with
  | RoleStructure.listoption =>
      match p.icon with
      | some i => some i
      | none =>
          match p.selected with
          | none => none
          | some s => some (if s then IconName.smallTick else IconName.blank)
  | RoleStructure.menuitem => p.icon

/-- Fourth component of the tuple: the aria-selected value of the li; in the
listoption structure it is Boolean(selected), otherwise it is not set. -/
def MenuItem.ariaSelected (p : MenuItemProps) : Option Bool :=
  match MenuItem.resolvedRoleStructure p with
  | RoleStructure.listoption => some (p.selected.getD false)
  | RoleStructure.menuitem => none

/-- The classNames call building anchorClasses, in argument order:
MENU_ITEM, the intent class, then the conditional object keys ACTIVE,
DISABLED, POPOVER_DISMISS, SELECTED, then the className prop. -/
def MenuItem.anchorClasses (p : MenuItemProps) : List CssClass :=
  [CssClass.MENU_ITEM]
    ++ (Classes.intentClass p.intent).toList
    ++ (if p.active then [CssClass.ACTIVE] else [])
    ++ (if p.disabled then [CssClass.DISABLED] else [])
    ++ (if p.shouldDismissPopover && !p.disabled && !p.children.isSome then
          [CssClass.POPOVER_DISMISS]
        else [])
    ++ (if p.active && (Classes.intentClass p.intent).isNone then
          [CssClass.SELECTED]
        else [])
    ++ (p.className.map CssClass.custom).toList

/-- The target element prop object: role and tabIndex 0 first, overridden
by the htmlProps spread (so a role or tabIndex key present there wins),
then by DISABLED_PROPS when disabled (href and the four mouse handlers
become undefined, tabIndex becomes -1; role is untouched), with className
set last. -/
def MenuItem.targetAttrs (p : MenuItemProps) : TargetAttrs :=
  let base : TargetAttrs :=
    { role :=
        match p.htmlProps.role with
        | some r => some r
        | none => MenuItem.targetRole p
      tabIndex := some (p.htmlProps.tabIndex.getD 0)
      href := p.htmlProps.href
      onClick := p.htmlProps.onClick
      onMouseDown := p.htmlProps.onMouseDown
      onMouseEnter := p.htmlProps.onMouseEnter
      onMouseLeave := p.htmlProps.onMouseLeave
      other := p.htmlProps.other
      className := MenuItem.anchorClasses p }
  if p.disabled then
    { base with
        href := none
        onClick := none
        onMouseDown := none
        onMouseEnter := none
        onMouseLeave := none
        tabIndex := some (-1) }
  else base

/-- MenuItem.maybeRenderLabel: null when both label and labelElement are
absent, otherwise a span with the MENU_ITEM_LABEL class and the
labelClassName prop. -/
def MenuItem.maybeRenderLabel (p : MenuItemProps) : Option Rendered :=
  if p.label = none ∧ p.labelElement = none then none
  else
    some (Rendered.labelSpanNode
      ([CssClass.MENU_ITEM_LABEL] ++ (p.labelClassName.map CssClass.custom).toList)
      p.label p.labelElement)

/-- The React.createElement call building the target: tagName (default "a"),
the target attribute object, and as children the optional icon span, the
Text element, the optional label span, and a CaretRight when the item has a
submenu. -/
def MenuItem.target (p : MenuItemProps) : Rendered :=
  Rendered.targetNode (p.tagName.getD "a") (MenuItem.targetAttrs p)
    ((match MenuItem.resolvedIcon p with
      | some i => [Rendered.iconSpanNode [CssClass.MENU_ITEM_ICON] i true (-1)]
      | none => [])
      ++ [Rendered.textNode
            ([CssClass.FILL] ++ (p.textClassName.map CssClass.custom).toList)
            (!p.multiline) p.htmlTitle p.text]
      ++ (MenuItem.maybeRenderLabel p).toList
      ++ (if p.children.isSome then
            [Rendered.caretRightNode [CssClass.MENU_SUBMENU_ICON] "Open sub menu"]
          else []))

/-- MenuItem.maybeRenderPopover: the target itself when there are no
children, otherwise a Popover with the literal defaults, the popoverProps
spread, and the forced content (a Menu with submenuProps and the children),
minimal true, and the MENU_SUBMENU popover class joined with the
popoverClassName of popoverProps. -/
def MenuItem.maybeRenderPopover (p : MenuItemProps) (target : Rendered) : Rendered :=
  match p.children with
  | none => target
  | some cs =>
      Rendered.popoverNode false false p.disabled false 0 "hover"
        SUBMENU_POPOVER_MODIFIERS "right-start" false p.popoverProps
        (Rendered.menuNode p.submenuProps cs) true
        ([CssClass.MENU_SUBMENU]
          ++ (p.popoverProps.popoverClassName.map CssClass.custom).toList)
        target

/-- MenuItem.render: an li with the MENU_SUBMENU class when the item has a
submenu, the computed li role and aria-selected, containing the target
optionally wrapped by maybeRenderPopover. -/
def MenuItem.render (p : MenuItemProps) : Rendered :=
  Rendered.liNode
    (if p.children.isSome then [CssClass.MENU_SUBMENU] else [])
    (MenuItem.liRole p)
    (MenuItem.ariaSelected p)
    (MenuItem.maybeRenderPopover p (MenuItem.target p))

/-- Role of the outermost element of a rendered tree (the li). -/
def Rendered.topRole : Rendered → String
  | Rendered.liNode _ role _ _ => role
  | _ => ""

/-- aria-selected of the outermost element of a rendered tree (the li). -/
def Rendered.topAriaSelected : Rendered → Option Bool
  | Rendered.liNode _ _ s _ => s
  | _ => none

/-- The single child of the li element. -/
def Rendered.liContent : Rendered → Option Rendered
  | Rendered.liNode _ _ _ child => some child
  | _ => none

/-- Unwrap a popover node to its anchored child; other nodes are returned
unchanged. -/
def Rendered.popChild : Rendered → Rendered
  | Rendered.popoverNode _ _ _ _ _ _ _ _ _ _ _ _ _ child => child
  | r => r

/-- The target element inside a rendered menu item: the li child, unwrapped
from the submenu popover when present. -/
def Rendered.targetOf : Rendered → Rendered
  | Rendered.liNode _ _ _ child => Rendered.popChild child
  | r => Rendered.popChild r

/-- Attribute record of a target element node. -/
def Rendered.attrsOf : Rendered → TargetAttrs
  | Rendered.targetNode _ a _ => a
  | _ => {}

/-- Children list of a target element node. -/
def Rendered.childrenOf : Rendered → List Rendered
  | Rendered.targetNode _ _ cs => cs
  | _ => []

/-- The local state of OmnibarExample (omnibarExample.tsx lines 40-51). -/
structure OmnibarExampleState where
  allowCreate : Bool
  isOpen : Bool
  resetOnSelect : Bool
  deriving DecidableEq, Repr

/-- The initial state literal of OmnibarExample. -/
def OmnibarExample.initialState : OmnibarExampleState :=
  { allowCreate := false, isOpen := false, resetOnSelect := true }

/-- handleClick: setState with isOpen true. -/
def OmnibarExample.handleClick (s : OmnibarExampleState) : OmnibarExampleState :=
  { s with isOpen := true }

/-- handleItemSelect: setState with isOpen false (the toast it also shows is
a side effect outside the component state). -/
def OmnibarExample.handleItemSelect (s : OmnibarExampleState) : OmnibarExampleState :=
  { s with isOpen := false }

/-- handleClose: setState with isOpen false. -/
def OmnibarExample.handleClose (s : OmnibarExampleState) : OmnibarExampleState :=
  { s with isOpen := false }

/-- handleToggle: setState with isOpen negated. -/
def OmnibarExample.handleToggle (s : OmnibarExampleState) : OmnibarExampleState :=
  { s with isOpen := !s.isOpen }

/-- handleAllowCreateChange: setState with the new allowCreate flag. -/
def OmnibarExample.handleAllowCreateChange (b : Bool) (s : OmnibarExampleState) :
    OmnibarExampleState :=
  { s with allowCreate := b }

/-- handleResetChange: setState with the new resetOnSelect flag. -/
def OmnibarExample.handleResetChange (b : Bool) (s : OmnibarExampleState) :
    OmnibarExampleState :=
  { s with resetOnSelect := b }

/-- The local state of NumericInputBasicExample
(numericInputBasicExample.tsx lines 67-84): the NumericInputProps record it
keeps in this.state.  min and max are Option Int with none standing for the
unbounded -Infinity and +Infinity choices of the example menus; step sizes
are rationals (minorStepSize is the decimal 0.1); intent none stands for
Intent.NONE. -/
structure NumericInputExampleState where
  allowNumericCharactersOnly : Bool
  buttonPosition : String
  disabled : Bool
  fill : Bool
  intent : Option Intent
  large : Bool
  majorStepSize : Rat
  max : Option Int
  min : Option Int
  minorStepSize : Rat
  selectAllOnFocus : Bool
  selectAllOnIncrement : Bool
  small : Bool
  stepSize : Rat
  value : String
  locale : Option String
  leftIcon : Option String
  leftElement : Option ReactNode
  deriving DecidableEq, Repr

/-- The initial state literal of NumericInputBasicExample. -/
def NumericInputBasicExample.initialState : NumericInputExampleState :=
  { allowNumericCharactersOnly := true
    buttonPosition := "right"
    disabled := false
    fill := false
    intent := none
    large := false
    majorStepSize := 10
    max := some 100
    min := some 0
    minorStepSize := 1 / 10
    selectAllOnFocus := false
    selectAllOnIncrement := false
    small := false
    stepSize := 1
    value := ""
    locale := none
    leftIcon := none
    leftElement := none }

/-- The user events handled by NumericInputBasicExample, one per setState
call site in its handlers. -/
inductive NumericInputEvent where
  | setMax (v : Option Int)
  | setMin (v : Option Int)
  | setIntent (i : Option Intent)
  | setButtonPosition (v : String)
  | setLocale (v : String)
  | setDisabled (b : Bool)
  | setLeftIcon (b : Bool)
  | setSmall (b : Bool)
  | setLarge (b : Bool)
  | setLeftElement (b : Bool)
  | setFill (b : Bool)
  | setAllowNumericCharactersOnly (b : Bool)
  | setSelectAllOnFocus (b : Bool)
  | setSelectAllOnIncrement (b : Bool)
  | setValue (v : String)
  deriving DecidableEq, Repr

/-- One setState step of NumericInputBasicExample.  handleSmallChange passes
small and, only when small is enabled, large false (the conditional spread
of small and braces large false); handleLargeChange is symmetric.
handleLocaleChange maps the "default" choice to an absent locale;
toggleLeftIcon and toggleLeftElement install or clear their element. -/
def NumericInputBasicExample.step (s : NumericInputExampleState) :
    NumericInputEvent → NumericInputExampleState
  | NumericInputEvent.setMax v => { s with max := v }
  | NumericInputEvent.setMin v => { s with min := v }
  | NumericInputEvent.setIntent i => { s with intent := i }
  | NumericInputEvent.setButtonPosition v => { s with buttonPosition := v }
  | NumericInputEvent.setLocale v =>
      { s with locale := if v = "default" then none else some v }
  | NumericInputEvent.setDisabled b => { s with disabled := b }
  | NumericInputEvent.setLeftIcon b =>
      { s with leftIcon := if b then some "dollar" else none }
  | NumericInputEvent.setSmall b =>
      { s with small := b, large := if b then false else s.large }
  | NumericInputEvent.setLarge b =>
      { s with large := b, small := if b then false else s.small }
  | NumericInputEvent.setLeftElement b =>
      { s with leftElement := if b then some 1 else none }
  | NumericInputEvent.setFill b => { s with fill := b }
  | NumericInputEvent.setAllowNumericCharactersOnly b =>
      { s with allowNumericCharactersOnly := b }
  | NumericInputEvent.setSelectAllOnFocus b => { s with selectAllOnFocus := b }
  | NumericInputEvent.setSelectAllOnIncrement b =>
      { s with selectAllOnIncrement := b }
  | NumericInputEvent.setValue v => { s with value := v }

/-- The state reached from the initial NumericInputBasicExample state after
a sequence of user events. -/
def NumericInputBasicExample.run (evs : List NumericInputEvent) :
    NumericInputExampleState :=
  evs.foldl NumericInputBasicExample.step NumericInputBasicExample.initialState

/-- Modelled from the spec: the Select component source is not part of this
repository snapshot (only its test suite is).  Per the spec, Select is a
composite widget combining a filterable text input with a list of
selectable items shown in a popover; its test suite shows filterable
defaults to true and filterable false hides the input group.  Only the
configuration the reviewed claims mention is modelled. -/
structure SelectProps where
  filterable : Option Bool := none
  disabled : Bool := false
  itemCount : Nat := 0
  popoverIsOpen : Bool := false
  deriving DecidableEq, Repr

/-- Modelled from the spec: element kinds appearing in the rendered Select
tree (the popover, the filter input group, the item list, the pass-through
target). -/
inductive SelectNode where
  | targetButton
  | inputGroup
  | itemList (count : Nat)
  | empty
  | pair (a b : SelectNode)
  | popover (isOpen : Bool) (content : SelectNode) (target : SelectNode)
  deriving DecidableEq, Repr

/-- Number of inputGroup elements in a Select tree. -/
def SelectNode.countInputGroups : SelectNode → Nat
  | SelectNode.inputGroup => 1
  | SelectNode.pair a b => a.countInputGroups + b.countInputGroups
  | SelectNode.popover _ content target =>
      content.countInputGroups + target.countInputGroups
  | _ => 0

/-- Number of popover elements in a Select tree. -/
def SelectNode.countPopovers : SelectNode → Nat
  | SelectNode.pair a b => a.countPopovers + b.countPopovers
  | SelectNode.popover _ content target =>
      1 + content.countPopovers + target.countPopovers
  | _ => 0

/-- Modelled from the spec: Select renders one popover around its target,
whose content is the filter input group (present unless filterable is false)
followed by the item list. -/
def Select.render (p : SelectProps) : SelectNode :=
  SelectNode.popover p.popoverIsOpen
    (SelectNode.pair
      (if p.filterable.getD true then SelectNode.inputGroup else SelectNode.empty)
      (SelectNode.itemList p.itemCount))
    SelectNode.targetButton

/-- Modelled from the spec: the interaction state of a mounted Select that
the reviewed claim mentions — whether its popover is open, and how often the
user-supplied onOpening callback passed through popoverProps has fired. -/
structure SelectMachine where
  isOpen : Bool
  onOpeningCalls : Nat
  deriving DecidableEq, Repr

/-- Modelled from the spec: a freshly mounted Select starts with the popover
closed and the onOpening callback never fired. -/
def SelectMachine.initial : SelectMachine :=
  { isOpen := false, onOpeningCalls := 0 }

/-- Modelled from the spec: clicking the Select target while the popover is
closed opens it and fires the pass-through onOpening callback once.  What a
click does while the popover is already open is not fixed by the reviewed
spec or tests, so it is modelled as leaving the state unchanged. -/
def SelectMachine.clickTarget (s : SelectMachine) : SelectMachine :=
  if s.isOpen then s
  else { isOpen := true, onOpeningCalls := s.onOpeningCalls + 1 }

/-- A concrete listoption prop bag used to instantiate the role-structure
theorem. -/
def listoptionExampleProps : MenuItemProps :=
  { roleStructure := some RoleStructure.listoption, selected := some true }

/-- A concrete prop bag with a submenu, used to instantiate the submenu
popover theorem. -/
def submenuExampleProps : MenuItemProps :=
  { children := some 7, submenuProps := 3 }

/-- A concrete disabled prop bag carrying every pass-through HTML prop the
disabled branch overrides, used to instantiate the disabled-props theorem. -/
def disabledExampleProps : MenuItemProps :=
  { disabled := true
    htmlProps :=
      { href := some "https://example.com"
        onClick := some 1
        onMouseDown := some 2
        onMouseEnter := some 3
        onMouseLeave := some 4
        tabIndex := some 5
        other := [("data-kind", "row")] } }

theorem MenuItem.render_targetOf (p : MenuItemProps) :
    (MenuItem.render p).targetOf = MenuItem.target p := by
  cases h : p.children <;>
    simp [MenuItem.render, MenuItem.maybeRenderPopover, MenuItem.target,
      Rendered.targetOf, Rendered.popChild, h]

theorem MenuItem.target_attrs (p : MenuItemProps) :
    (MenuItem.target p).attrsOf = MenuItem.targetAttrs p := by
  simp [MenuItem.target, Rendered.attrsOf]

theorem MenuItem.targetAttrs_role (p : MenuItemProps) :
    (MenuItem.targetAttrs p).role =
      match p.htmlProps.role with
      | some r => some r
      | none => MenuItem.targetRole p := by
  cases h : p.disabled <;> simp [MenuItem.targetAttrs, h]

theorem MenuItem.targetAttrs_className (p : MenuItemProps) :
    (MenuItem.targetAttrs p).className = MenuItem.anchorClasses p := by
  cases h : p.disabled <;> simp [MenuItem.targetAttrs, h]

theorem MenuItem.render_topRole (p : MenuItemProps) :
    (MenuItem.render p).topRole = MenuItem.liRole p := by
  simp [MenuItem.render, Rendered.topRole]

theorem MenuItem.render_topAriaSelected (p : MenuItemProps) :
    (MenuItem.render p).topAriaSelected = MenuItem.ariaSelected p := by
  simp [MenuItem.render, Rendered.topAriaSelected]

theorem MenuItem.mem_anchorClasses_popover_dismiss (p : MenuItemProps) :
    CssClass.POPOVER_DISMISS ∈ MenuItem.anchorClasses p ↔
      p.shouldDismissPopover = true ∧ p.disabled = false ∧ p.children = none := by
  unfold MenuItem.anchorClasses
  cases hi : p.intent <;> cases hc : p.className <;> cases hch : p.children <;>
    cases ha : p.active <;> cases hd : p.disabled <;>
    cases hs : p.shouldDismissPopover <;>
    simp [Classes.intentClass]

/-- C1 (amended): the li side of the ARIA structure is decided by the
roleStructure prop alone — with listoption the li role is "option" and
aria-selected on the li is Boolean(selected); with menuitem or an omitted
roleStructure the li role is "none" and aria-selected is not set.  The
target element carries the roleStructure-derived role (no role for
listoption, "menuitem" otherwise) provided no role key is passed through
the anchor HTML props: a role supplied there stays in the htmlProps rest
bag and is spread after the derived role, overriding it. -/
theorem menuItem_roleStructure_aria (p : MenuItemProps) :
    (p.roleStructure = some RoleStructure.listoption →
        (MenuItem.render p).topRole = "option"
        ∧ (MenuItem.render p).topAriaSelected = some (p.selected.getD false)
        ∧ (p.htmlProps.role = none →
            (MenuItem.render p).targetOf.attrsOf.role = none))
    ∧ (p.roleStructure = some RoleStructure.menuitem ∨ p.roleStructure = none →
        (MenuItem.render p).topRole = "none"
        ∧ (MenuItem.render p).topAriaSelected = none
        ∧ (p.htmlProps.role = none →
            (MenuItem.render p).targetOf.attrsOf.role = some "menuitem")) := by
  rw [MenuItem.render_targetOf, MenuItem.target_attrs]
  rw [MenuItem.render_topRole, MenuItem.render_topAriaSelected,
    MenuItem.targetAttrs_role]
  constructor
  · intro h
    refine ⟨?_, ?_, fun hr => ?_⟩
    · simp [MenuItem.liRole, MenuItem.resolvedRoleStructure, h]
    · simp [MenuItem.ariaSelected, MenuItem.resolvedRoleStructure, h]
    · simp [MenuItem.targetRole, MenuItem.resolvedRoleStructure, h, hr]
  · intro h
    rcases h with h | h
    · refine ⟨?_, ?_, fun hr => ?_⟩
      · simp [MenuItem.liRole, MenuItem.resolvedRoleStructure, h]
      · simp [MenuItem.ariaSelected, MenuItem.resolvedRoleStructure, h]
      · simp [MenuItem.targetRole, MenuItem.resolvedRoleStructure, h, hr]
    · refine ⟨?_, ?_, fun hr => ?_⟩
      · simp [MenuItem.liRole, MenuItem.resolvedRoleStructure, h]
      · simp [MenuItem.ariaSelected, MenuItem.resolvedRoleStructure, h]
      · simp [MenuItem.targetRole, MenuItem.resolvedRoleStructure, h, hr]

theorem menuItem_roleStructure_aria_witness :
    listoptionExampleProps.roleStructure = some RoleStructure.listoption
    ∧ listoptionExampleProps.htmlProps.role = none
    ∧ ((MenuItem.render listoptionExampleProps).topRole = "option"
      ∧ (MenuItem.render listoptionExampleProps).topAriaSelected =
          some (listoptionExampleProps.selected.getD false)
      ∧ (MenuItem.render listoptionExampleProps).targetOf.attrsOf.role = none) :=
  ⟨rfl, rfl, by
    have h := (menuItem_roleStructure_aria listoptionExampleProps).1 rfl
    exact ⟨h.1, h.2.1, h.2.2 rfl⟩⟩

/-- A well-typed listoption prop bag that also passes role through the
anchor HTML attributes (the component's props include the anchor HTML
attribute type, whose role key is never destructured out). -/
def roleOverrideExampleProps : MenuItemProps :=
  { roleStructure := some RoleStructure.listoption
    htmlProps := { role := some "menuitem" } }

/-- C1 counterexample: with roleStructure listoption and a role passed
through the anchor HTML props, the htmlProps spread at menuItem.tsx line
223 follows the derived role of line 221, so the rendered target has role
"menuitem" — not the absent role the original claim asserts for every prop
bag. -/
theorem menuItem_role_override_cex :
    roleOverrideExampleProps.roleStructure = some RoleStructure.listoption
    ∧ (MenuItem.render roleOverrideExampleProps).targetOf.attrsOf.role =
        some "menuitem" :=
  ⟨rfl, rfl⟩

/-- C2: the rendered item is wrapped in a submenu Popover exactly when the
children prop is non-null: without children the target sits directly in the
li; with children the li child is a Popover whose content is a Menu holding
the children, and a caret icon is the last child of the target. -/
theorem menuItem_submenu_popover (p : MenuItemProps) :
    (p.children = none →
      (MenuItem.render p).liContent = some (MenuItem.target p))
    ∧ (∀ cs, p.children = some cs →
        (MenuItem.render p).liContent =
          some (Rendered.popoverNode false false p.disabled false 0 "hover"
            SUBMENU_POPOVER_MODIFIERS "right-start" false p.popoverProps
            (Rendered.menuNode p.submenuProps cs) true
            ([CssClass.MENU_SUBMENU]
              ++ (p.popoverProps.popoverClassName.map CssClass.custom).toList)
            (MenuItem.target p))
        ∧ (MenuItem.target p).childrenOf.getLast? =
            some (Rendered.caretRightNode [CssClass.MENU_SUBMENU_ICON]
              "Open sub menu")) := by
  constructor
  · intro h
    simp [MenuItem.render, MenuItem.maybeRenderPopover, Rendered.liContent, h]
  · intro cs h
    constructor
    · simp [MenuItem.render, MenuItem.maybeRenderPopover, Rendered.liContent, h]
    · simp [MenuItem.target, Rendered.childrenOf, h, List.getLast?_append]
      rw [← List.cons_append, List.getLast?_concat]

theorem menuItem_submenu_popover_witness :
    submenuExampleProps.children = some 7
    ∧ ((MenuItem.render submenuExampleProps).liContent =
        some (Rendered.popoverNode false false submenuExampleProps.disabled
          false 0 "hover" SUBMENU_POPOVER_MODIFIERS "right-start" false
          submenuExampleProps.popoverProps
          (Rendered.menuNode submenuExampleProps.submenuProps 7) true
          ([CssClass.MENU_SUBMENU]
            ++ (submenuExampleProps.popoverProps.popoverClassName.map
                  CssClass.custom).toList)
          (MenuItem.target submenuExampleProps))
      ∧ (MenuItem.target submenuExampleProps).childrenOf.getLast? =
          some (Rendered.caretRightNode [CssClass.MENU_SUBMENU_ICON]
            "Open sub menu")) :=
  ⟨rfl, (menuItem_submenu_popover submenuExampleProps).2 7 rfl⟩

/-- C6: MenuItem.render is total — for every prop bag it evaluates to an li
element; the embedding of the render method has no error branch or
partiality. -/
theorem menuItem_render_total (p : MenuItemProps) :
    ∃ classes role sel child,
      MenuItem.render p = Rendered.liNode classes role sel child :=
  ⟨_, _, _, _, rfl⟩

/-- C7: MenuItem rendering is a pure function of its prop bag — the embedded
render depends on nothing besides its props argument, so renders with equal
props produce identical trees (markup, ARIA attributes and CSS classes
alike). -/
theorem menuItem_render_pure (p q : MenuItemProps) (h : p = q) :
    MenuItem.render p = MenuItem.render q :=
  congrArg MenuItem.render h

theorem menuItem_render_pure_witness :
    ({} : MenuItemProps) = ({} : MenuItemProps)
    ∧ MenuItem.render {} = MenuItem.render {} :=
  ⟨rfl, menuItem_render_pure {} {} rfl⟩

/-- C8: with disabled true, the rendered target has href and the four mouse
handlers undefined and tabIndex -1, overriding any values supplied through
the HTML props, while the remaining pass-through HTML props are left
unchanged. -/
theorem menuItem_disabled_props (p : MenuItemProps) (h : p.disabled = true) :
    (MenuItem.render p).targetOf.attrsOf.href = none
    ∧ (MenuItem.render p).targetOf.attrsOf.onClick = none
    ∧ (MenuItem.render p).targetOf.attrsOf.onMouseDown = none
    ∧ (MenuItem.render p).targetOf.attrsOf.onMouseEnter = none
    ∧ (MenuItem.render p).targetOf.attrsOf.onMouseLeave = none
    ∧ (MenuItem.render p).targetOf.attrsOf.tabIndex = some (-1)
    ∧ (MenuItem.render p).targetOf.attrsOf.other = p.htmlProps.other := by
  rw [MenuItem.render_targetOf, MenuItem.target_attrs]
  simp [MenuItem.targetAttrs, h]

theorem menuItem_disabled_props_witness :
    disabledExampleProps.disabled = true
    ∧ ((MenuItem.render disabledExampleProps).targetOf.attrsOf.href = none
      ∧ (MenuItem.render disabledExampleProps).targetOf.attrsOf.onClick = none
      ∧ (MenuItem.render disabledExampleProps).targetOf.attrsOf.onMouseDown = none
      ∧ (MenuItem.render disabledExampleProps).targetOf.attrsOf.onMouseEnter = none
      ∧ (MenuItem.render disabledExampleProps).targetOf.attrsOf.onMouseLeave = none
      ∧ (MenuItem.render disabledExampleProps).targetOf.attrsOf.tabIndex = some (-1)
      ∧ (MenuItem.render disabledExampleProps).targetOf.attrsOf.other =
          disabledExampleProps.htmlProps.other) :=
  ⟨rfl, menuItem_disabled_props disabledExampleProps rfl⟩

/-- C9: the POPOVER_DISMISS class is on the rendered target exactly when
shouldDismissPopover is true (its default), disabled is false and the item
has no submenu children. -/
theorem menuItem_popover_dismiss_iff (p : MenuItemProps) :
    CssClass.POPOVER_DISMISS ∈ (MenuItem.render p).targetOf.attrsOf.className ↔
      p.shouldDismissPopover = true ∧ p.disabled = false ∧ p.children = none := by
  rw [MenuItem.render_targetOf, MenuItem.target_attrs,
    MenuItem.targetAttrs_className]
  exact MenuItem.mem_anchorClasses_popover_dismiss p

/-- C5: every OmnibarExample event updates isOpen deterministically — a
click sets it true, closing and item selection set it false, the hotkey
toggle negates it — and applying the toggle twice restores the original
isOpen value from any state. -/
theorem omnibar_isOpen_events (s : OmnibarExampleState) :
    (OmnibarExample.handleClick s).isOpen = true
    ∧ (OmnibarExample.handleClose s).isOpen = false
    ∧ (OmnibarExample.handleItemSelect s).isOpen = false
    ∧ (OmnibarExample.handleToggle s).isOpen = !s.isOpen
    ∧ (OmnibarExample.handleToggle (OmnibarExample.handleToggle s)).isOpen
        = s.isOpen := by
  refine ⟨rfl, rfl, rfl, rfl, ?_⟩
  simp [OmnibarExample.handleToggle]

theorem NumericInputBasicExample.step_preserves_exclusive
    (s : NumericInputExampleState) (e : NumericInputEvent)
    (h : (s.small && s.large) = false) :
    ((NumericInputBasicExample.step s e).small
      && (NumericInputBasicExample.step s e).large) = false := by
  cases e <;> simp [NumericInputBasicExample.step] <;>
    first
      | exact h
      | (rename_i b; cases b <;> simp_all)

/-- C10: in NumericInputBasicExample the small and large flags are never
both true — both start false, and no sequence of user events can reach a
state with both set, since enabling either flag forces the other to
false. -/
theorem numericInput_small_large_exclusive :
    NumericInputBasicExample.initialState.small = false
    ∧ NumericInputBasicExample.initialState.large = false
    ∧ ∀ evs : List NumericInputEvent,
        (NumericInputBasicExample.run evs).small = false
        ∨ (NumericInputBasicExample.run evs).large = false := by
  refine ⟨rfl, rfl, ?_⟩
  intro evs
  have main : ∀ s : NumericInputExampleState, (s.small && s.large) = false →
      ((evs.foldl NumericInputBasicExample.step s).small
        && (evs.foldl NumericInputBasicExample.step s).large) = false := by
    induction evs with
    | nil => intro s h; exact h
    | cons e evs ih =>
        intro s h
        exact ih _ (NumericInputBasicExample.step_preserves_exclusive s e h)
  have h := main NumericInputBasicExample.initialState rfl
  rcases Bool.and_eq_false_iff.mp h with h | h
  · exact Or.inl h
  · exact Or.inr h

/-- C3: the modelled Select render contains exactly one Popover holding the
item list, with an InputGroup present when filterable is true or unset and
absent when filterable is false. -/
theorem select_popover_and_filter (p : SelectProps) :
    SelectNode.countPopovers (Select.render p) = 1
    ∧ (p.filterable ≠ some false →
        SelectNode.countInputGroups (Select.render p) = 1)
    ∧ (p.filterable = some false →
        SelectNode.countInputGroups (Select.render p) = 0) := by
  rcases hf : p.filterable with _ | b
  · refine ⟨?_, fun _ => ?_, fun h => ?_⟩ <;>
      simp_all [Select.render, SelectNode.countPopovers,
        SelectNode.countInputGroups, hf]
  · cases b <;>
      refine ⟨?_, fun h => ?_, fun h => ?_⟩ <;>
      simp_all [Select.render, SelectNode.countPopovers,
        SelectNode.countInputGroups]

theorem select_popover_and_filter_witness :
    (({} : SelectProps).filterable ≠ some false
      ∧ SelectNode.countInputGroups (Select.render {}) = 1)
    ∧ (({ filterable := some false } : SelectProps).filterable = some false
      ∧ SelectNode.countInputGroups
          (Select.render { filterable := some false }) = 0) :=
  ⟨⟨by decide, (select_popover_and_filter {}).2.1 (by decide)⟩,
    ⟨rfl, (select_popover_and_filter { filterable := some false }).2.2 rfl⟩⟩

/-- C4: in the modelled Select interaction state, clicking the target while
the popover is closed makes the popover open and fires the pass-through
onOpening callback exactly once more. -/
theorem select_click_opens_once (s : SelectMachine) (h : s.isOpen = false) :
    s.clickTarget.isOpen = true
    ∧ s.clickTarget.onOpeningCalls = s.onOpeningCalls + 1 := by
  simp [SelectMachine.clickTarget, h]

theorem select_click_opens_once_witness :
    SelectMachine.initial.isOpen = false
    ∧ (SelectMachine.initial.clickTarget.isOpen = true
      ∧ SelectMachine.initial.clickTarget.onOpeningCalls =
          SelectMachine.initial.onOpeningCalls + 1) :=
  ⟨rfl, select_click_opens_once SelectMachine.initial rfl⟩
